import Mathlib

/-
Shallow embedding of the pano head-tracking core:
  src/src/utils/math-utils.js
  src/src/tracking/head-tracking-controller.js
  src/src/viewport/viewport-manager.js

JavaScript numbers are modelled as exact rationals together with an explicit
NaN value (`JSVal`); nullable instance fields are `Option`-valued, and the
JavaScript coercion of `null` to `0` in arithmetic is made explicit
(`nullToNum`).  The real-valued trigonometry (`Math.atan`, `Math.pow` with a
fractional exponent) is modelled over `ℝ`.  Logging (`console.info`) and the
frame counters that exist only to throttle logging are omitted: they do not
feed any computation.
-/

/-- A JavaScript number: either `NaN` or a finite value, modelled as an exact
rational.  (`±Infinity` is outside the model: the pose-source contract supplies
real numbers, and the guards in the source target `NaN` via `isNaN`.) -/
inductive JSVal where
  | nan : JSVal
  | val (q : ℚ) : JSVal
deriving DecidableEq, Repr

namespace JSVal

/-- JS addition: `NaN` propagates. -/
def add : JSVal → JSVal → JSVal
  | val a, val b => val (a + b)
  | _, _ => nan

/-- JS subtraction: `NaN` propagates. -/
def sub : JSVal → JSVal → JSVal
  | val a, val b => val (a - b)
  | _, _ => nan

/-- JS multiplication: `NaN` propagates. -/
def mul : JSVal → JSVal → JSVal
  | val a, val b => val (a * b)
  | _, _ => nan

/-- JS unary minus: `NaN` propagates. -/
def neg : JSVal → JSVal
  | val a => val (-a)
  | nan => nan

/-- `Math.abs`: `NaN` propagates. -/
def abs : JSVal → JSVal
  | val a => val |a|
  | nan => nan

/-- The JS comparison `v > c` against a finite constant: any comparison with
`NaN` is `false`. -/
def gtB : JSVal → ℚ → Bool
  | val a, c => decide (c < a)
  | nan, _ => false

/-- `Math.max(c, v)` with a finite first argument: `NaN` propagates. -/
def maxC (c : ℚ) : JSVal → JSVal
  | val a => val (max c a)
  | nan => nan

/-- `Math.min(c, v)` with a finite first argument: `NaN` propagates. -/
def minC (c : ℚ) : JSVal → JSVal
  | val a => val (min c a)
  | nan => nan

end JSVal

/-- JavaScript arithmetic coerces `null` to `0` (as in
`translation.x - this.baseTranslationX` when the baseline field is `null`). -/
def nullToNum : Option JSVal → JSVal
  | none => JSVal.val 0
  | some v => v

/-- `clamp` from math-utils.js (lines 130-132), on finite values. -/
def clampQ (value lo hi : ℚ) : ℚ := max lo (min hi value)

/-- `lerp` from math-utils.js (lines 142-144):
`a + (b - a) * clamp(t, 0, 1)`, lifted to JS values (the interpolation
parameter in the source is always a finite constant). -/
def jlerp (a b : JSVal) (t : ℚ) : JSVal :=
  a.add ((b.sub a).mul (JSVal.val (clampQ t 0 1)))

/-- `smoothValue` from math-utils.js (lines 154-156):
`lerp(previous, current, 1 - smoothingFactor)`. -/
def smoothValue (current previous : JSVal) (smoothingFactor : ℚ) : JSVal :=
  jlerp previous current (1 - smoothingFactor)

/-- `zTranslationToDistance` from math-utils.js (lines 89-120).  The argument
is the (nullable) stored baseline Z; `null`, `undefined` and `NaN` resolve to
the midpoint `(minDistance + maxDistance) / 2`.  For a finite argument the
result is the clamped proportional mapping; the final `isNaN` recheck in the
source is unreachable for finite inputs and therefore has no branch here. -/
def zTranslationToDistance (zTranslation : Option JSVal)
    (minDistance maxDistance : ℚ) : ℚ :=
  match zTranslation with
  | none => (minDistance + maxDistance) / 2
  | some JSVal.nan => (minDistance + maxDistance) / 2
  | some (JSVal.val z) =>
    let baseZ : ℚ := -99/2          -- -49.5
    let baseDistance : ℚ := 13/25   -- 0.52
    let sensitivity : ℚ := 7/200    -- 0.035
    let deltaZ := z - baseZ
    let distanceChangeFactor := 1 + deltaZ * sensitivity
    let newDistance := baseDistance * distanceChangeFactor
    max minDistance (min maxDistance newDistance)

/-- `calculateAngularSize` from math-utils.js (lines 14-43).
Invalid width (`NaN`, zero, or negative — the source's
`!screenWidth || screenWidth <= 0 || isNaN(screenWidth)`) and invalid
distance yield the fallback angle `28`; otherwise the angle is
`2 * atan(widthInMeters / (2 * distance))` in degrees, with
`widthInMeters = screenWidth * 0.0254 / 96`.  For valid inputs the result of
`atan` is a genuine real number, so the source's final `isNaN` recheck is
unreachable. -/
noncomputable def calculateAngularSize : JSVal → JSVal → ℝ
  | JSVal.val w, JSVal.val d =>
    if w ≤ 0 ∨ d ≤ 0 then 28
    else
      let widthInMeters : ℝ := (w : ℝ) * (0.0254 / 96)
      let angleRadians : ℝ := 2 * Real.arctan (widthInMeters / (2 * (d : ℝ)))
      angleRadians * (180 / Real.pi)
  | _, _ => 28

/-- `angularSizeToDisplayPercent` from math-utils.js (lines 57-77).  The
source's default arguments are `minAngle = 28`, `maxAngle = 180`,
`minPercent = 30`, `maxPercent = 100`; every call site uses the defaults, and
theorems below instantiate them explicitly. -/
noncomputable def angularSizeToDisplayPercent
    (angularSize minAngle maxAngle minPercent maxPercent : ℝ) : ℝ :=
  let clampedAngle := max minAngle (min maxAngle angularSize)
  let normalized := (clampedAngle - minAngle) / (maxAngle - minAngle)
  let nonLinearNormalized := normalized ^ (0.7 : ℝ)
  minPercent + (maxPercent - minPercent) * nonLinearNormalized

/-! ### ViewportManager (src/src/viewport/viewport-manager.js)

All quantities on this side are finite rationals. -/

/-- The instance state of `ViewportManager`. -/
structure ViewportManager where
  imageWidth : ℚ
  imageHeight : ℚ
  screenWidth : ℚ
  screenHeight : ℚ
  initialDisplayPercent : ℚ
  currentDisplayPercent : ℚ
  minDisplayPercent : ℚ
  scale : ℚ
  offsetX : ℚ
  offsetY : ℚ
  boundarySmoothing : ℚ
deriving DecidableEq, Repr

/-- The `ViewportManager` constructor (lines 17-40). -/
def mkViewportManager (imageWidth imageHeight screenWidth screenHeight : ℚ) :
    ViewportManager :=
  { imageWidth := imageWidth
    imageHeight := imageHeight
    screenWidth := screenWidth
    screenHeight := screenHeight
    initialDisplayPercent := 50
    currentDisplayPercent := 50
    minDisplayPercent := 30
    scale := 100 / 50
    offsetX := 0
    offsetY := 0
    boundarySmoothing := 3/10 }

/-- `updateDisplayPercent` (lines 46-52). -/
def updateDisplayPercent (s : ViewportManager) (displayPercent : ℚ) :
    ViewportManager :=
  let c := max s.minDisplayPercent (min 100 displayPercent)
  { s with currentDisplayPercent := c, scale := 100 / c }

/-- `clampWithSmoothing` (lines 130-144): soft clamp with damping factor
`this.boundarySmoothing` beyond either boundary. -/
def clampWithSmoothing (s : ViewportManager) (value lo hi : ℚ) : ℚ :=
  if value < lo then lo + (value - lo) * s.boundarySmoothing
  else if hi < value then hi + (value - hi) * s.boundarySmoothing
  else value

/-- The maximum pan magnitude for X computed inside `updateOffset` (line 78). -/
def maxOffsetX (s : ViewportManager) : ℚ :=
  s.imageWidth * (s.scale - 1) / (2 * s.scale)

/-- The maximum pan magnitude for Y computed inside `updateOffset` (line 79). -/
def maxOffsetY (s : ViewportManager) : ℚ :=
  s.imageHeight * (s.scale - 1) / (2 * s.scale)

/-- `updateOffset` (lines 61-121): threshold-gate the incoming absolute
offsets (threshold `0.1`), apply sensitivity, invert Y, then soft-clamp into
`[-maxOffset, maxOffset]` per axis and store the results. -/
def updateOffset (s : ViewportManager) (absoluteOffsetX absoluteOffsetY : ℚ)
    (sensitivity : ℚ) : ViewportManager :=
  let mX := maxOffsetX s
  let mY := maxOffsetY s
  let newOffsetX := if 1/10 < |absoluteOffsetX| then absoluteOffsetX * sensitivity else 0
  let newOffsetY := if 1/10 < |absoluteOffsetY| then -absoluteOffsetY * sensitivity else 0
  { s with offsetX := clampWithSmoothing s newOffsetX (-mX) mX
           offsetY := clampWithSmoothing s newOffsetY (-mY) mY }

/-- `reset` (lines 149-154). -/
def ViewportManager.resetState (s : ViewportManager) : ViewportManager :=
  { s with currentDisplayPercent := s.initialDisplayPercent
           scale := 100 / s.initialDisplayPercent
           offsetX := 0
           offsetY := 0 }

/-! ### HeadTrackingController (src/src/tracking/head-tracking-controller.js) -/

/-- A 3D point as delivered by the pose source. -/
structure Vec3 where
  x : JSVal
  y : JSVal
  z : JSVal
deriving DecidableEq, Repr

/-- The per-frame pose input: a translation and an optional stable point.
`processHeadPose` receives `Option MediaPipeResult` (the source checks
`!mediaPipeResult || !mediaPipeResult.translation`). -/
structure MediaPipeResult where
  translation : Option Vec3
  stablePoint : Option Vec3
deriving DecidableEq, Repr

/-- The record returned by `processHeadPose` (lines 256-262). -/
structure TrackingResult where
  displayPercent : ℝ
  offsetX : JSVal
  offsetY : JSVal
  distance : JSVal
  angularSize : ℝ

/-- The instance state of `HeadTrackingController` (constructor, lines 22-70).
The two fields that exist only for logging throttling are omitted. -/
structure HeadTrackingController where
  screenWidth : JSVal
  screenHeight : JSVal
  minDistance : ℚ
  maxDistance : ℚ
  zTranslationScale : ℚ
  zTranslationOffset : ℚ
  currentDistance : Option JSVal
  currentAngularSize : Option ℝ
  currentDisplayPercent : ℝ
  previousTranslationX : JSVal
  previousTranslationY : JSVal
  previousTranslationZ : JSVal
  baseTranslationX : Option JSVal
  baseTranslationY : Option JSVal
  baseTranslationZ : Option JSVal
  baseInitialized : Bool
  baseStablePointX : Option JSVal
  baseStablePointY : Option JSVal
  baseStablePointZ : Option JSVal
  smoothingFactor : ℚ
  sensitivityX : ℚ
  sensitivityY : ℚ
  sensitivityZ : ℚ
  minChangeThreshold : ℚ
  currentViewportX : ℚ
  currentViewportY : ℚ

/-- The `HeadTrackingController` constructor (lines 22-70). -/
def mkHeadTrackingController (screenWidth screenHeight : JSVal) :
    HeadTrackingController :=
  { screenWidth := screenWidth
    screenHeight := screenHeight
    minDistance := 1/10
    maxDistance := 3/2
    zTranslationScale := 1/2
    zTranslationOffset := 0
    currentDistance := none
    currentAngularSize := none
    currentDisplayPercent := 50
    previousTranslationX := JSVal.val 0
    previousTranslationY := JSVal.val 0
    previousTranslationZ := JSVal.val 0
    baseTranslationX := none
    baseTranslationY := none
    baseTranslationZ := none
    baseInitialized := false
    baseStablePointX := none
    baseStablePointY := none
    baseStablePointZ := none
    smoothingFactor := 7/10
    sensitivityX := 3440
    sensitivityY := 1780
    sensitivityZ := 1/200
    minChangeThreshold := 1/1000
    currentViewportX := 0
    currentViewportY := 0 }

/-- `setSensitivity` (lines 78-82). -/
def setSensitivity (s : HeadTrackingController) (sX sY sZ : ℚ) :
    HeadTrackingController :=
  { s with sensitivityX := sX, sensitivityY := sY, sensitivityZ := sZ }

/-- The baseline-capture block of `processHeadPose` (lines 101-139): when a
stable point is present and its baseline is `null`, capture it; when no stable
point is present and `baseInitialized` is `false`, capture the translation
baseline.  Lines 136-139 then capture the Z translation baseline whenever
`baseInitialized` is still `false`. -/
def captureBases (s : HeadTrackingController) (translation : Vec3)
    (stablePoint : Option Vec3) : HeadTrackingController :=
  let s1 :=
    match stablePoint with
    | some sp =>
      if s.baseStablePointX = none then
        { s with baseStablePointX := some sp.x
                 baseStablePointY := some sp.y
                 baseStablePointZ := some sp.z }
      else s
    | none =>
      if s.baseInitialized = false then
        { s with baseTranslationX := some translation.x
                 baseTranslationY := some translation.y
                 baseTranslationZ := some translation.z
                 baseInitialized := true }
      else s
  if s1.baseInitialized = false then
    { s1 with baseTranslationZ := some translation.z, baseInitialized := true }
  else s1

/-- The X delta of `processHeadPose` (lines 114-116 and 131-132), computed
against the post-capture state: the stable-point baseline when a stable point
is present, else the translation baseline (a still-`null` baseline coerces to
`0` in the subtraction, as in JavaScript). -/
def headPoseDeltaX (s1 : HeadTrackingController) (translation : Vec3)
    (stablePoint : Option Vec3) : JSVal :=
  match stablePoint with
  | some sp => sp.x.sub (nullToNum s1.baseStablePointX)
  | none => translation.x.sub (nullToNum s1.baseTranslationX)

/-- The Y delta of `processHeadPose` (lines 114-116 and 131-132). -/
def headPoseDeltaY (s1 : HeadTrackingController) (translation : Vec3)
    (stablePoint : Option Vec3) : JSVal :=
  match stablePoint with
  | some sp => sp.y.sub (nullToNum s1.baseStablePointY)
  | none => translation.y.sub (nullToNum s1.baseTranslationY)

/-- The pan-offset block of `processHeadPose` (lines 160-181): offsets are
produced only when a stable point is present and its baseline is non-`null`;
each axis is threshold-gated by `minChangeThreshold` and scaled by its
sensitivity.  Without a stable point both offsets are `0`. -/
def absoluteOffsets (s1 : HeadTrackingController) (stablePoint : Option Vec3) :
    JSVal × JSVal :=
  match stablePoint with
  | some sp =>
    if s1.baseStablePointX ≠ none then
      let absoluteDeltaX := sp.x.sub (nullToNum s1.baseStablePointX)
      let absoluteDeltaY := sp.y.sub (nullToNum s1.baseStablePointY)
      ( if absoluteDeltaX.abs.gtB s1.minChangeThreshold then
          absoluteDeltaX.mul (JSVal.val s1.sensitivityX)
        else JSVal.val 0,
        if absoluteDeltaY.abs.gtB s1.minChangeThreshold then
          absoluteDeltaY.mul (JSVal.val s1.sensitivityY)
        else JSVal.val 0 )
    else (JSVal.val 0, JSVal.val 0)
  | none => (JSVal.val 0, JSVal.val 0)

/-- The Z-smoothing block of `processHeadPose` (lines 140, 187-199): the Z
delta against the (possibly `null`-coerced) Z baseline is gated by the small
threshold `0.0001` and exponentially smoothed; a failed gate yields `0`
(which is also what the source stores back into the accumulator on that
branch). -/
def smoothedDeltaZ (s1 : HeadTrackingController) (translation : Vec3) : JSVal :=
  let deltaZ := translation.z.sub (nullToNum s1.baseTranslationZ)
  if deltaZ.abs.gtB (1/10000) then
    smoothValue deltaZ s1.previousTranslationZ s1.smoothingFactor
  else JSVal.val 0

/-- The distance block of `processHeadPose` (lines 204-217): the baseline
distance from the baseline Z, adjusted by the smoothed delta scaled by
`sensitivityZ * 2.5`, clamped into `[minDistance, maxDistance]`. -/
def frameDistance (s1 : HeadTrackingController) (translation : Vec3) : JSVal :=
  let baseDistance :=
    zTranslationToDistance s1.baseTranslationZ s1.minDistance s1.maxDistance
  let effectiveSensitivityZ := s1.sensitivityZ * (5/2)
  let distanceChange :=
    (smoothedDeltaZ s1 translation).neg.mul (JSVal.val effectiveSensitivityZ)
  JSVal.maxC s1.minDistance
    (JSVal.minC s1.maxDistance ((JSVal.val baseDistance).add distanceChange))

/-- `processHeadPose` (lines 89-263).  Returns the per-frame tracking result
(or `none` when the input is absent or carries no translation) together with
the updated instance state. -/
noncomputable def processHeadPose (s : HeadTrackingController)
    (mediaPipeResult : Option MediaPipeResult) :
    Option TrackingResult × HeadTrackingController :=
  match mediaPipeResult with
  | none => (none, s)
  | some m =>
    match m.translation with
    | none => (none, s)
    | some translation =>
      -- lines 101-139: lazy baseline capture
      let s1 := captureBases s translation m.stablePoint
      -- lines 160-185: absolute pan offsets from the stable point
      let pan := absoluteOffsets s1 m.stablePoint
      -- lines 140, 187-217: gated/smoothed Z delta and clamped distance
      let smoothDeltaZ := smoothedDeltaZ s1 translation
      let distance := frameDistance s1 translation
      -- lines 220-228: angular size, display percent, debug state
      let angularSize := calculateAngularSize s1.screenWidth distance
      let displayPercent := angularSizeToDisplayPercent angularSize 28 180 30 100
      let s2 :=
        { s1 with previousTranslationZ := smoothDeltaZ
                  currentDistance := some distance
                  currentAngularSize := some angularSize
                  currentDisplayPercent := displayPercent }
      ( some { displayPercent := displayPercent
               offsetX := pan.1
               offsetY := pan.2
               distance := distance
               angularSize := angularSize },
        s2 )

/-- `resetBasePosition` (lines 312-325): clears the X/Y baselines (translation
and stable point) and the X/Y smoothing accumulators, keeps `baseInitialized`
set so the Z baseline survives, and preserves `baseTranslationZ` and
`previousTranslationZ`. -/
def resetBasePosition (s : HeadTrackingController) : HeadTrackingController :=
  { s with baseInitialized := true
           baseTranslationX := none
           baseTranslationY := none
           baseStablePointX := none
           baseStablePointY := none
           baseStablePointZ := none
           previousTranslationX := JSVal.val 0
           previousTranslationY := JSVal.val 0 }

/-! ### Shared helper lemmas -/

lemma maxOffsetX_nonneg (s : ViewportManager) (hsc : 1 ≤ s.scale)
    (hiw : 0 ≤ s.imageWidth) : 0 ≤ maxOffsetX s := by
  unfold maxOffsetX
  apply div_nonneg (mul_nonneg hiw (by linarith)) (by linarith)

lemma maxOffsetY_nonneg (s : ViewportManager) (hsc : 1 ≤ s.scale)
    (hih : 0 ≤ s.imageHeight) : 0 ≤ maxOffsetY s := by
  unfold maxOffsetY
  apply div_nonneg (mul_nonneg hih (by linarith)) (by linarith)

lemma clampWithSmoothing_of_lt (s : ViewportManager) {value lo : ℚ} (hi : ℚ)
    (hv : value < lo) :
    clampWithSmoothing s value lo hi = lo + (value - lo) * s.boundarySmoothing := by
  unfold clampWithSmoothing
  rw [if_pos hv]

lemma clampWithSmoothing_of_gt (s : ViewportManager) {value lo hi : ℚ}
    (hlo : lo ≤ hi) (hv : hi < value) :
    clampWithSmoothing s value lo hi = hi + (value - hi) * s.boundarySmoothing := by
  unfold clampWithSmoothing
  rw [if_neg (by linarith), if_pos hv]

lemma clampWithSmoothing_of_mem (s : ViewportManager) {value lo hi : ℚ}
    (hlo : lo ≤ value) (hhi : value ≤ hi) :
    clampWithSmoothing s value lo hi = value := by
  unfold clampWithSmoothing
  rw [if_neg (by linarith), if_neg (by linarith)]

lemma updateOffset_offsetX (s : ViewportManager) (ax ay sens : ℚ) :
    (updateOffset s ax ay sens).offsetX =
      clampWithSmoothing s (if 1/10 < |ax| then ax * sens else 0)
        (-(maxOffsetX s)) (maxOffsetX s) := rfl

lemma updateOffset_offsetY (s : ViewportManager) (ax ay sens : ℚ) :
    (updateOffset s ax ay sens).offsetY =
      clampWithSmoothing s (if 1/10 < |ay| then -ay * sens else 0)
        (-(maxOffsetY s)) (maxOffsetY s) := rfl

/-! ### Claims about the ViewportManager -/

/-- C3: for any candidate pan offset that exceeds the permissible range
`[-maxOffset, maxOffset]` by an excess `e > 0`, the stored offset after
`updateOffset` equals the boundary plus `0.3 * e` (on either boundary and on
either axis), and the stored excess beyond the boundary is strictly less than
the candidate's excess.  The candidate is the threshold-gated,
sensitivity-scaled (and for Y sign-inverted) input, exactly as computed inside
`updateOffset`. -/
theorem C3_boundary_damping (s : ViewportManager) (ax ay sens e : ℚ)
    (hbs : s.boundarySmoothing = 3/10) (hsc : 1 ≤ s.scale)
    (hiw : 0 ≤ s.imageWidth) (hih : 0 ≤ s.imageHeight) :
    (((if 1/10 < |ax| then ax * sens else 0) = maxOffsetX s + e) → 0 < e →
      (updateOffset s ax ay sens).offsetX = maxOffsetX s + (3/10) * e ∧
      (updateOffset s ax ay sens).offsetX - maxOffsetX s < e) ∧
    (((if 1/10 < |ax| then ax * sens else 0) = -(maxOffsetX s) - e) → 0 < e →
      (updateOffset s ax ay sens).offsetX = -(maxOffsetX s) - (3/10) * e ∧
      -(maxOffsetX s) - (updateOffset s ax ay sens).offsetX < e) ∧
    (((if 1/10 < |ay| then -ay * sens else 0) = maxOffsetY s + e) → 0 < e →
      (updateOffset s ax ay sens).offsetY = maxOffsetY s + (3/10) * e ∧
      (updateOffset s ax ay sens).offsetY - maxOffsetY s < e) ∧
    (((if 1/10 < |ay| then -ay * sens else 0) = -(maxOffsetY s) - e) → 0 < e →
      (updateOffset s ax ay sens).offsetY = -(maxOffsetY s) - (3/10) * e ∧
      -(maxOffsetY s) - (updateOffset s ax ay sens).offsetY < e) := by
  have hmX := maxOffsetX_nonneg s hsc hiw
  have hmY := maxOffsetY_nonneg s hsc hih
  refine ⟨fun hc he => ?_, fun hc he => ?_, fun hc he => ?_, fun hc he => ?_⟩
  · rw [updateOffset_offsetX, hc,
      clampWithSmoothing_of_gt s (by linarith) (by linarith), hbs]
    constructor <;> linarith
  · rw [updateOffset_offsetX, hc,
      clampWithSmoothing_of_lt s (maxOffsetX s) (by linarith), hbs]
    constructor <;> linarith
  · rw [updateOffset_offsetY, hc,
      clampWithSmoothing_of_gt s (by linarith) (by linarith), hbs]
    constructor <;> linarith
  · rw [updateOffset_offsetY, hc,
      clampWithSmoothing_of_lt s (maxOffsetY s) (by linarith), hbs]
    constructor <;> linarith

/-- Witness for C3: with a 1000-pixel-wide image at scale 2 the pan bound is
250; a candidate offset of 300 (excess 50) stores 250 + 0.3·50 = 265. -/
theorem C3_boundary_damping_witness :
    (updateOffset (mkViewportManager 1000 800 500 400) 300 0 1).offsetX =
      maxOffsetX (mkViewportManager 1000 800 500 400) + (3/10) * 50 ∧
    (updateOffset (mkViewportManager 1000 800 500 400) 300 0 1).offsetX -
      maxOffsetX (mkViewportManager 1000 800 500 400) < 50 :=
  (C3_boundary_damping (mkViewportManager 1000 800 500 400) 300 0 1 50
    (by norm_num [mkViewportManager]) (by norm_num [mkViewportManager])
    (by norm_num [mkViewportManager]) (by norm_num [mkViewportManager])).1
    (by norm_num [mkViewportManager, maxOffsetX]) (by norm_num)

/-- C4 counterexample: at scale 1 (`displayPercent = 100`) the claim says every
input stores pan offset exactly 0, but an above-threshold input of 10 is
boundary-damped to 0.3 · 10 = 3 ≠ 0. -/
theorem C4_counterexample :
    (updateOffset (updateDisplayPercent (mkViewportManager 1000 800 500 400) 100)
      10 0 1).offsetX = 3 ∧ (3:ℚ) ≠ 0 := by
  constructor
  · norm_num [updateOffset, updateDisplayPercent, mkViewportManager,
      clampWithSmoothing, maxOffsetX]
  · norm_num

/-- C4 (amended): the per-axis pan bound used by `updateOffset` is exactly
`imageDimension * (scale - 1) / (2 * scale)`, and at scale 1 both bounds are 0;
however the stored offset at scale 1 is the boundary-damped
`0.3 * candidate` — exactly 0 only for inputs at or below the 0.1 threshold
(where the candidate is 0), not for every input. -/
theorem C4_maxOffset_formula (s : ViewportManager) (ax ay sens : ℚ)
    (hbs : s.boundarySmoothing = 3/10) :
    (maxOffsetX s = s.imageWidth * (s.scale - 1) / (2 * s.scale) ∧
     maxOffsetY s = s.imageHeight * (s.scale - 1) / (2 * s.scale)) ∧
    (s.scale = 1 →
      maxOffsetX s = 0 ∧ maxOffsetY s = 0 ∧
      (updateOffset s ax ay sens).offsetX =
        (3/10) * (if 1/10 < |ax| then ax * sens else 0) ∧
      (updateOffset s ax ay sens).offsetY =
        (3/10) * (if 1/10 < |ay| then -ay * sens else 0) ∧
      (|ax| ≤ 1/10 → (updateOffset s ax ay sens).offsetX = 0) ∧
      (|ay| ≤ 1/10 → (updateOffset s ax ay sens).offsetY = 0)) := by
  refine ⟨⟨rfl, rfl⟩, fun h1 => ?_⟩
  have hmX : maxOffsetX s = 0 := by unfold maxOffsetX; rw [h1]; ring
  have hmY : maxOffsetY s = 0 := by unfold maxOffsetY; rw [h1]; ring
  have hdampX : (updateOffset s ax ay sens).offsetX =
      (3/10) * (if 1/10 < |ax| then ax * sens else 0) := by
    rw [updateOffset_offsetX, hmX]
    rcases lt_trichotomy (if 1/10 < |ax| then ax * sens else 0) 0 with hv | hv | hv
    · rw [clampWithSmoothing_of_lt s 0 (by linarith), hbs]; ring
    · rw [hv, clampWithSmoothing_of_mem s (by norm_num) (by norm_num)]; ring
    · rw [clampWithSmoothing_of_gt s (by norm_num) (by linarith), hbs]; ring
  have hdampY : (updateOffset s ax ay sens).offsetY =
      (3/10) * (if 1/10 < |ay| then -ay * sens else 0) := by
    rw [updateOffset_offsetY, hmY]
    rcases lt_trichotomy (if 1/10 < |ay| then -ay * sens else 0) 0 with hv | hv | hv
    · rw [clampWithSmoothing_of_lt s 0 (by linarith), hbs]; ring
    · rw [hv, clampWithSmoothing_of_mem s (by norm_num) (by norm_num)]; ring
    · rw [clampWithSmoothing_of_gt s (by norm_num) (by linarith), hbs]; ring
  refine ⟨hmX, hmY, hdampX, hdampY, fun hax => ?_, fun hay => ?_⟩
  · rw [hdampX, if_neg (by linarith)]; ring
  · rw [hdampY, if_neg (by linarith)]; ring

/-- Witness for C4: at scale 1 a sub-threshold input stores offset exactly 0. -/
theorem C4_maxOffset_formula_witness :
    maxOffsetX (updateDisplayPercent (mkViewportManager 1000 800 500 400) 100) = 0 ∧
    (updateOffset (updateDisplayPercent (mkViewportManager 1000 800 500 400) 100)
      (1/20) 0 1).offsetX = 0 := by
  have h := C4_maxOffset_formula
    (updateDisplayPercent (mkViewportManager 1000 800 500 400) 100) (1/20) 0 1
    (by norm_num [updateDisplayPercent, mkViewportManager])
  have h2 := h.2 (by norm_num [updateDisplayPercent, mkViewportManager])
  exact ⟨h2.1, h2.2.2.2.2.1 (by rw [abs_of_nonneg (by norm_num)]; norm_num)⟩

/-- C10: `updateOffset` is memoryless in the pan state — the stored offsets
depend only on the arguments and the non-offset state (scale, dimensions,
damping factor); calling it twice with identical arguments equals calling it
once; and an input at or below the secondary threshold 0.1 stores offset
exactly 0 for that axis (for any state with scale ≥ 1 and nonnegative image
dimensions). -/
theorem C10_updateOffset_memoryless (s : ViewportManager) (ax ay sens o1 o2 : ℚ) :
    (updateOffset { s with offsetX := o1, offsetY := o2 } ax ay sens =
      updateOffset s ax ay sens) ∧
    (updateOffset (updateOffset s ax ay sens) ax ay sens =
      updateOffset s ax ay sens) ∧
    (1 ≤ s.scale → 0 ≤ s.imageWidth → 0 ≤ s.imageHeight →
      (|ax| ≤ 1/10 → (updateOffset s ax ay sens).offsetX = 0) ∧
      (|ay| ≤ 1/10 → (updateOffset s ax ay sens).offsetY = 0)) := by
  refine ⟨rfl, rfl, fun hsc hiw hih => ⟨fun hax => ?_, fun hay => ?_⟩⟩
  · have hmX := maxOffsetX_nonneg s hsc hiw
    rw [updateOffset_offsetX, if_neg (by linarith),
      clampWithSmoothing_of_mem s (by linarith) (by linarith)]
  · have hmY := maxOffsetY_nonneg s hsc hih
    rw [updateOffset_offsetY, if_neg (by linarith),
      clampWithSmoothing_of_mem s (by linarith) (by linarith)]

/-- Witness for C10: concrete double-update and sub-threshold reset. -/
theorem C10_updateOffset_memoryless_witness :
    (updateOffset (updateOffset (mkViewportManager 1000 800 500 400) 7 9 1) 7 9 1 =
      updateOffset (mkViewportManager 1000 800 500 400) 7 9 1) ∧
    (updateOffset (mkViewportManager 1000 800 500 400) (1/20) 9 1).offsetX = 0 :=
  ⟨(C10_updateOffset_memoryless (mkViewportManager 1000 800 500 400) 7 9 1 0 0).2.1,
   ((C10_updateOffset_memoryless (mkViewportManager 1000 800 500 400) (1/20) 9 1 0 0).2.2
      (by norm_num [mkViewportManager]) (by norm_num [mkViewportManager])
      (by norm_num [mkViewportManager])).1
      (by rw [abs_of_nonneg (by norm_num)]; norm_num)⟩

/-! ### Real-analysis helpers for the angular-size pipeline -/

lemma arctan_le_self_of_nonneg {x : ℝ} (hx : 0 ≤ x) : Real.arctan x ≤ x := by
  rcases eq_or_lt_of_le hx with h | h
  · rw [← h, Real.arctan_zero]
  · have h0 : 0 < Real.arctan x := by
      have := Real.arctan_strictMono h
      rwa [Real.arctan_zero] at this
    have h3 := Real.lt_tan h0 (Real.arctan_lt_pi_div_two x)
    rw [Real.tan_arctan] at h3
    exact h3.le

lemma arctan_nonneg_of_nonneg {x : ℝ} (hx : 0 ≤ x) : 0 ≤ Real.arctan x := by
  rcases eq_or_lt_of_le hx with h | h
  · rw [← h, Real.arctan_zero]
  · have := Real.arctan_strictMono h
    rw [Real.arctan_zero] at this
    exact this.le

/-- With the source's default parameters the display-percent mapping always
lands in `[30, 100]`. -/
lemma angularSizeToDisplayPercent_bounds (a : ℝ) :
    30 ≤ angularSizeToDisplayPercent a 28 180 30 100 ∧
      angularSizeToDisplayPercent a 28 180 30 100 ≤ 100 := by
  unfold angularSizeToDisplayPercent
  have hc1 : (28:ℝ) ≤ max 28 (min 180 a) := le_max_left _ _
  have hc2 : max (28:ℝ) (min 180 a) ≤ 180 :=
    max_le (by norm_num) (min_le_left _ _)
  have hn1 : (0:ℝ) ≤ (max 28 (min 180 a) - 28) / (180 - 28) := by
    apply div_nonneg <;> nlinarith
  have hn2 : (max (28:ℝ) (min 180 a) - 28) / (180 - 28) ≤ 1 := by
    rw [div_le_one (by norm_num)]
    nlinarith
  have hr1 : (0:ℝ) ≤ ((max 28 (min 180 a) - 28) / (180 - 28)) ^ (0.7:ℝ) :=
    Real.rpow_nonneg hn1 _
  have hr2 : ((max (28:ℝ) (min 180 a) - 28) / (180 - 28)) ^ (0.7:ℝ) ≤ 1 :=
    Real.rpow_le_one hn1 hn2 (by norm_num)
  constructor <;> nlinarith

/-- Any angle at or below the minimum clamps to normalized 0, hence percent
exactly 30. -/
lemma angularSizeToDisplayPercent_of_le_min {a : ℝ} (ha : a ≤ 28) :
    angularSizeToDisplayPercent a 28 180 30 100 = 30 := by
  unfold angularSizeToDisplayPercent
  have h1 : min (180:ℝ) a = a := min_eq_right (by linarith)
  have h2 : max (28:ℝ) (min 180 a) = 28 := by rw [h1]; exact max_eq_left ha
  rw [h2]
  norm_num

/-- C7: the zoom-percent-from-angle mapping (with the source's default
parameters `minAngle = 28`, `maxAngle = 180`, `minPercent = 30`,
`maxPercent = 100`) is monotonically non-decreasing in the angle over all of
`ℝ`; at `minAngle` it returns exactly `minPercent` and at `maxAngle` exactly
100. -/
theorem C7_displayPercent_monotone :
    (∀ a b : ℝ, a ≤ b →
      angularSizeToDisplayPercent a 28 180 30 100 ≤
        angularSizeToDisplayPercent b 28 180 30 100) ∧
    angularSizeToDisplayPercent 28 28 180 30 100 = 30 ∧
    angularSizeToDisplayPercent 180 28 180 30 100 = 100 := by
  refine ⟨fun a b hab => ?_, ?_, ?_⟩
  · unfold angularSizeToDisplayPercent
    have hc1 : (28:ℝ) ≤ max 28 (min 180 a) := le_max_left _ _
    have hn1 : (0:ℝ) ≤ (max 28 (min 180 a) - 28) / (180 - 28) := by
      apply div_nonneg <;> nlinarith
    have hmono : max (28:ℝ) (min 180 a) ≤ max 28 (min 180 b) :=
      max_le_max le_rfl (min_le_min le_rfl hab)
    have hnmono : (max (28:ℝ) (min 180 a) - 28) / (180 - 28) ≤
        (max 28 (min 180 b) - 28) / (180 - 28) :=
      div_le_div_of_nonneg_right (by nlinarith) (by norm_num)
    have hr := Real.rpow_le_rpow hn1 hnmono (by norm_num : (0:ℝ) ≤ 0.7)
    nlinarith
  · exact angularSizeToDisplayPercent_of_le_min le_rfl
  · unfold angularSizeToDisplayPercent
    norm_num

/-- Witness for C7: the monotonicity clause applied at 28 ≤ 180 recovers
30 ≤ 100 between the two endpoint values. -/
theorem C7_displayPercent_monotone_witness :
    angularSizeToDisplayPercent 28 28 180 30 100 ≤
      angularSizeToDisplayPercent 180 28 180 30 100 :=
  C7_displayPercent_monotone.1 28 180 (by norm_num)

/-! ### Helper lemmas about the controller -/

lemma captureBases_config (s : HeadTrackingController) (t : Vec3)
    (sp : Option Vec3) :
    (captureBases s t sp).screenWidth = s.screenWidth ∧
    (captureBases s t sp).minDistance = s.minDistance ∧
    (captureBases s t sp).maxDistance = s.maxDistance ∧
    (captureBases s t sp).previousTranslationZ = s.previousTranslationZ ∧
    (captureBases s t sp).smoothingFactor = s.smoothingFactor ∧
    (captureBases s t sp).sensitivityX = s.sensitivityX ∧
    (captureBases s t sp).sensitivityY = s.sensitivityY ∧
    (captureBases s t sp).sensitivityZ = s.sensitivityZ ∧
    (captureBases s t sp).minChangeThreshold = s.minChangeThreshold := by
  unfold captureBases
  cases sp <;> dsimp only <;> split_ifs <;>
    exact ⟨rfl, rfl, rfl, rfl, rfl, rfl, rfl, rfl, rfl⟩

lemma captureBases_baseTranslationZ_of_initialized (s : HeadTrackingController)
    (t : Vec3) (sp : Option Vec3) (h : s.baseInitialized = true) :
    (captureBases s t sp).baseTranslationZ = s.baseTranslationZ := by
  unfold captureBases
  cases sp <;> dsimp only <;> split_ifs <;> simp_all

lemma captureBases_stable_of_set (s : HeadTrackingController) (t : Vec3)
    (sp : Vec3) (h : s.baseStablePointX ≠ none) :
    (captureBases s t (some sp)).baseStablePointX = s.baseStablePointX ∧
    (captureBases s t (some sp)).baseStablePointY = s.baseStablePointY := by
  unfold captureBases
  dsimp only
  rw [if_neg h]
  split_ifs <;> exact ⟨rfl, rfl⟩

lemma processHeadPose_result (s : HeadTrackingController) (t : Vec3)
    (sp : Option Vec3) :
    processHeadPose s (some ⟨some t, sp⟩) =
      ( some { displayPercent := angularSizeToDisplayPercent
                 (calculateAngularSize (captureBases s t sp).screenWidth
                   (frameDistance (captureBases s t sp) t)) 28 180 30 100
               offsetX := (absoluteOffsets (captureBases s t sp) sp).1
               offsetY := (absoluteOffsets (captureBases s t sp) sp).2
               distance := frameDistance (captureBases s t sp) t
               angularSize := calculateAngularSize (captureBases s t sp).screenWidth
                 (frameDistance (captureBases s t sp) t) },
        { captureBases s t sp with
            previousTranslationZ := smoothedDeltaZ (captureBases s t sp) t
            currentDistance := some (frameDistance (captureBases s t sp) t)
            currentAngularSize := some (calculateAngularSize
              (captureBases s t sp).screenWidth (frameDistance (captureBases s t sp) t))
            currentDisplayPercent := angularSizeToDisplayPercent
              (calculateAngularSize (captureBases s t sp).screenWidth
                (frameDistance (captureBases s t sp) t)) 28 180 30 100 } ) := rfl

lemma smoothedDeltaZ_not_nan (s1 : HeadTrackingController) (t : Vec3)
    (h : s1.previousTranslationZ ≠ JSVal.nan) :
    ∃ c : ℚ, smoothedDeltaZ s1 t = JSVal.val c := by
  unfold smoothedDeltaZ
  dsimp only
  split_ifs with hgate
  · rcases hz : t.z.sub (nullToNum s1.baseTranslationZ) with _ | q
    · rw [hz] at hgate
      simp [JSVal.abs, JSVal.gtB] at hgate
    · rcases hp : s1.previousTranslationZ with _ | p
      · exact absurd hp h
      · exact ⟨_, rfl⟩
  · exact ⟨0, rfl⟩

/-! ### Concrete states used by witnesses and counterexamples -/

/-- A frame input that carries only a translation (no stable point). -/
def sampleTranslationOnly (x y z : ℚ) : MediaPipeResult :=
  { translation := some ⟨JSVal.val x, JSVal.val y, JSVal.val z⟩, stablePoint := none }

/-- A freshly constructed controller for a 100-pixel-wide screen. -/
def controller100 : HeadTrackingController :=
  mkHeadTrackingController (JSVal.val 100) (JSVal.val 100)

/-- The controller state after processing a first translation-only sample at
`{x:0, y:0, z:-50}`. -/
noncomputable def afterFirstFrame : HeadTrackingController :=
  (processHeadPose controller100 (some (sampleTranslationOnly 0 0 (-50)))).2

/-! ### Claims about the HeadTrackingController -/

/-- C1 (amended): for every state and every accepted sample that carries a
translation but no stable point, `processHeadPose` returns pan offsets that
are exactly 0 — the translation-baseline deltas are computed (lines 117-133)
but feed only the diagnostics; the returned offsets come exclusively from the
stable-point block (lines 160-185), which yields `(0, 0)` when no stable
point is present. -/
theorem C1_no_stablePoint_offsets_zero (s : HeadTrackingController) (t : Vec3) :
    ((processHeadPose s (some ⟨some t, none⟩)).1.map TrackingResult.offsetX) =
      some (JSVal.val 0) ∧
    ((processHeadPose s (some ⟨some t, none⟩)).1.map TrackingResult.offsetY) =
      some (JSVal.val 0) :=
  ⟨rfl, rfl⟩

/-- C1 counterexample: after a first frame establishes the translation
baseline at x = 0, a second translation-only sample at x = 1 has fallback
delta 1 (far above the 0.001 threshold) with sensitivityX = 3440, yet the
returned pan offset is 0, not 1 · 3440 — the claim's sensitivity-scaled
fallback offsets are never produced. -/
theorem C1_counterexample :
    headPoseDeltaX
        (captureBases afterFirstFrame ⟨JSVal.val 1, JSVal.val 0, JSVal.val (-50)⟩ none)
        ⟨JSVal.val 1, JSVal.val 0, JSVal.val (-50)⟩ none = JSVal.val 1 ∧
    (1/1000 : ℚ) < 1 ∧
    afterFirstFrame.sensitivityX = 3440 ∧
    ((processHeadPose afterFirstFrame
        (some ⟨some ⟨JSVal.val 1, JSVal.val 0, JSVal.val (-50)⟩, none⟩)).1.map
      TrackingResult.offsetX) = some (JSVal.val 0) ∧
    JSVal.val 0 ≠ JSVal.val (1 * 3440) := by
  simp only [afterFirstFrame, controller100, sampleTranslationOnly, processHeadPose,
    captureBases, absoluteOffsets, headPoseDeltaX, mkHeadTrackingController, nullToNum,
    smoothedDeltaZ, frameDistance, zTranslationToDistance, smoothValue, jlerp, clampQ,
    JSVal.sub, JSVal.add, JSVal.mul, JSVal.neg, JSVal.abs, JSVal.gtB, JSVal.maxC,
    JSVal.minC]
  norm_num

/-- The state produced by processing one translation-only sample at
`{x:5, y:5, z:-50}` from a fresh controller and then calling
`resetBasePosition`. -/
noncomputable def afterResetState : HeadTrackingController :=
  resetBasePosition
    ((processHeadPose controller100 (some (sampleTranslationOnly 5 5 (-50)))).2)

/-- C2 (amended): baseline capture is exactly-once on the stable-point path
(always) and on the translation fallback path after construction: the first
sample's value is captured and the next sample's delta is measured against it.
After `resetBasePosition`, however, the translation fallback baselines are
never re-captured (`baseInitialized` stays `true`), so fallback deltas are
measured against the `null`-coerced value 0 rather than a re-captured
baseline. -/
theorem C2_baseline_capture (s : HeadTrackingController) (t1 t2 : Vec3)
    (sp1 sp2 : Vec3) :
    (s.baseStablePointX = none →
      (processHeadPose s (some ⟨some t1, some sp1⟩)).2.baseStablePointX =
        some sp1.x ∧
      headPoseDeltaX
          (captureBases (processHeadPose s (some ⟨some t1, some sp1⟩)).2 t2 (some sp2))
          t2 (some sp2) = sp2.x.sub sp1.x) ∧
    (s.baseInitialized = false →
      (processHeadPose s (some ⟨some t1, none⟩)).2.baseTranslationX = some t1.x ∧
      headPoseDeltaX
          (captureBases (processHeadPose s (some ⟨some t1, none⟩)).2 t2 none)
          t2 none = t2.x.sub t1.x) ∧
    ((captureBases (resetBasePosition s) t1 none).baseTranslationX = none ∧
      headPoseDeltaX (captureBases (resetBasePosition s) t1 none) t1 none =
        t1.x.sub (JSVal.val 0)) := by
  refine ⟨fun hnone => ?_, fun hinit => ?_, ?_, ?_⟩
  · have hcap : (captureBases s t1 (some sp1)).baseStablePointX = some sp1.x := by
      unfold captureBases
      dsimp only
      rw [if_pos hnone]
      split_ifs <;> rfl
    have hstate : (processHeadPose s (some ⟨some t1, some sp1⟩)).2.baseStablePointX =
        some sp1.x := by
      rw [processHeadPose_result]
      exact hcap
    refine ⟨hstate, ?_⟩
    have hkeep := captureBases_stable_of_set
      ((processHeadPose s (some ⟨some t1, some sp1⟩)).2) t2 sp2 (by rw [hstate]; simp)
    unfold headPoseDeltaX
    rw [hkeep.1, hstate]
    rfl
  · have hcap : (captureBases s t1 none).baseTranslationX = some t1.x ∧
        (captureBases s t1 none).baseInitialized = true := by
      unfold captureBases
      dsimp only
      rw [if_pos hinit]
      norm_num
    have hstate : (processHeadPose s (some ⟨some t1, none⟩)).2.baseTranslationX =
          some t1.x ∧
        (processHeadPose s (some ⟨some t1, none⟩)).2.baseInitialized = true := by
      rw [processHeadPose_result]
      exact hcap
    refine ⟨hstate.1, ?_⟩
    have hkeep : (captureBases (processHeadPose s (some ⟨some t1, none⟩)).2 t2
        none).baseTranslationX = some t1.x := by
      unfold captureBases
      dsimp only
      rw [if_neg (by simp [hstate.2]), if_neg (by simp [hstate.2])]
      exact hstate.1
    unfold headPoseDeltaX
    rw [hkeep]
    rfl
  · unfold captureBases resetBasePosition
    dsimp only
    norm_num
  · unfold headPoseDeltaX captureBases resetBasePosition
    dsimp only
    norm_num [nullToNum]

/-- Witness for C2: from a fresh controller, a stable point captured at x = 2
gives the next sample (stable x = 5) delta 3, and a fallback baseline captured
at x = 5 gives the next sample (x = 9) delta 4. -/
theorem C2_baseline_capture_witness :
    headPoseDeltaX
        (captureBases
          (processHeadPose controller100
            (some { translation := some ⟨JSVal.val 0, JSVal.val 0, JSVal.val (-50)⟩,
                    stablePoint := some ⟨JSVal.val 2, JSVal.val 0, JSVal.val 0⟩ })).2
          ⟨JSVal.val 0, JSVal.val 0, JSVal.val (-50)⟩
          (some ⟨JSVal.val 5, JSVal.val 0, JSVal.val 0⟩))
        ⟨JSVal.val 0, JSVal.val 0, JSVal.val (-50)⟩
        (some ⟨JSVal.val 5, JSVal.val 0, JSVal.val 0⟩) = JSVal.val 3 ∧
    headPoseDeltaX
        (captureBases
          (processHeadPose controller100 (some (sampleTranslationOnly 5 5 (-50)))).2
          ⟨JSVal.val 9, JSVal.val 0, JSVal.val (-50)⟩ none)
        ⟨JSVal.val 9, JSVal.val 0, JSVal.val (-50)⟩ none = JSVal.val 4 := by
  constructor
  · have h := (C2_baseline_capture controller100
      ⟨JSVal.val 0, JSVal.val 0, JSVal.val (-50)⟩
      ⟨JSVal.val 0, JSVal.val 0, JSVal.val (-50)⟩
      ⟨JSVal.val 2, JSVal.val 0, JSVal.val 0⟩
      ⟨JSVal.val 5, JSVal.val 0, JSVal.val 0⟩).1 rfl
    rw [h.2]
    simp only [JSVal.sub]
    norm_num
  · have h := (C2_baseline_capture controller100
      ⟨JSVal.val 5, JSVal.val 5, JSVal.val (-50)⟩
      ⟨JSVal.val 9, JSVal.val 0, JSVal.val (-50)⟩
      ⟨JSVal.val 0, JSVal.val 0, JSVal.val 0⟩
      ⟨JSVal.val 0, JSVal.val 0, JSVal.val 0⟩).2.1 rfl
    rw [show sampleTranslationOnly 5 5 (-50) =
      { translation := some ⟨JSVal.val 5, JSVal.val 5, JSVal.val (-50)⟩,
        stablePoint := none } from rfl]
    rw [h.2]
    simp only [JSVal.sub]
    norm_num

/-- C2 counterexample: after `resetBasePosition` the translation X baseline is
`null`; processing a translation-only sample at x = 7 does not re-capture it
(it stays `null`, not 7), and the fallback delta is 7 — measured against the
`null`-coerced 0, not against a freshly captured baseline (which would give
delta 0). -/
theorem C2_counterexample :
    afterResetState.baseTranslationX = none ∧
    (processHeadPose afterResetState
        (some (sampleTranslationOnly 7 7 (-50)))).2.baseTranslationX = none ∧
    headPoseDeltaX
        (captureBases afterResetState ⟨JSVal.val 7, JSVal.val 7, JSVal.val (-50)⟩ none)
        ⟨JSVal.val 7, JSVal.val 7, JSVal.val (-50)⟩ none = JSVal.val 7 ∧
    JSVal.val 7 ≠ JSVal.val 0 := by
  simp only [afterResetState, controller100, sampleTranslationOnly, processHeadPose,
    captureBases, headPoseDeltaX, resetBasePosition, mkHeadTrackingController,
    nullToNum, JSVal.sub]
  norm_num

lemma absoluteOffsets_fst_of_set (s1 : HeadTrackingController) (sp : Vec3)
    (v : JSVal) (h : s1.baseStablePointX = some v) :
    (absoluteOffsets s1 (some sp)).1 =
      if (sp.x.sub v).abs.gtB s1.minChangeThreshold then
        (sp.x.sub v).mul (JSVal.val s1.sensitivityX)
      else JSVal.val 0 := by
  simp only [absoluteOffsets]
  rw [h]
  rw [if_pos (Option.some_ne_none v)]
  rfl

lemma absoluteOffsets_snd_of_set (s1 : HeadTrackingController) (sp : Vec3)
    (v w : JSVal) (hx : s1.baseStablePointX = some v)
    (hy : s1.baseStablePointY = some w) :
    (absoluteOffsets s1 (some sp)).2 =
      if (sp.y.sub w).abs.gtB s1.minChangeThreshold then
        (sp.y.sub w).mul (JSVal.val s1.sensitivityY)
      else JSVal.val 0 := by
  simp only [absoluteOffsets]
  rw [hx, hy]
  rw [if_pos (Option.some_ne_none v)]
  rfl

/-- C5: with a stable point present whose X/Y baselines are already captured
and the threshold at its source value 0.001, a delta of magnitude at or below
the threshold on an axis yields pan offset exactly 0 for that axis this frame,
and a delta strictly above it yields exactly `delta * sensitivity` for that
axis (nonzero whenever the sensitivity is positive) — for X (lines 174-176)
and for Y (lines 178-180) alike; in particular a stable point at
`baselineX + 0.01` with `sensitivityX = 1000` yields pan offset X exactly
10. -/
theorem C5_noise_gating (s : HeadTrackingController) (bx yb spx spy : ℚ)
    (sp t : Vec3)
    (hbase : s.baseStablePointX = some (JSVal.val bx))
    (hbaseY : s.baseStablePointY = some (JSVal.val yb))
    (hthr : s.minChangeThreshold = 1/1000)
    (hspx : sp.x = JSVal.val spx)
    (hspy : sp.y = JSVal.val spy) :
    (|spx - bx| ≤ 1/1000 →
      ((processHeadPose s (some ⟨some t, some sp⟩)).1.map TrackingResult.offsetX) =
        some (JSVal.val 0)) ∧
    (1/1000 < |spx - bx| →
      ((processHeadPose s (some ⟨some t, some sp⟩)).1.map TrackingResult.offsetX) =
        some (JSVal.val ((spx - bx) * s.sensitivityX))) ∧
    (1/1000 < |spx - bx| → 0 < s.sensitivityX →
      (spx - bx) * s.sensitivityX ≠ 0) ∧
    (|spy - yb| ≤ 1/1000 →
      ((processHeadPose s (some ⟨some t, some sp⟩)).1.map TrackingResult.offsetY) =
        some (JSVal.val 0)) ∧
    (1/1000 < |spy - yb| →
      ((processHeadPose s (some ⟨some t, some sp⟩)).1.map TrackingResult.offsetY) =
        some (JSVal.val ((spy - yb) * s.sensitivityY))) ∧
    (1/1000 < |spy - yb| → 0 < s.sensitivityY →
      (spy - yb) * s.sensitivityY ≠ 0) ∧
    (s.sensitivityX = 1000 → spx = bx + 1/100 →
      ((processHeadPose s (some ⟨some t, some sp⟩)).1.map TrackingResult.offsetX) =
        some (JSVal.val 10)) := by
  have hkeep := captureBases_stable_of_set s t sp (by rw [hbase]; simp)
  have hcfg := captureBases_config s t (some sp)
  have hform : ((processHeadPose s (some ⟨some t, some sp⟩)).1.map
      TrackingResult.offsetX) =
      some (if (sp.x.sub (JSVal.val bx)).abs.gtB s.minChangeThreshold then
        (sp.x.sub (JSVal.val bx)).mul (JSVal.val s.sensitivityX)
      else JSVal.val 0) := by
    rw [processHeadPose_result]
    rw [absoluteOffsets_fst_of_set _ sp (JSVal.val bx) (by rw [hkeep.1, hbase]),
      hcfg.2.2.2.2.2.2.2.2, hcfg.2.2.2.2.2.1]
    rfl
  have hformY : ((processHeadPose s (some ⟨some t, some sp⟩)).1.map
      TrackingResult.offsetY) =
      some (if (sp.y.sub (JSVal.val yb)).abs.gtB s.minChangeThreshold then
        (sp.y.sub (JSVal.val yb)).mul (JSVal.val s.sensitivityY)
      else JSVal.val 0) := by
    rw [processHeadPose_result]
    rw [absoluteOffsets_snd_of_set _ sp (JSVal.val bx) (JSVal.val yb)
        (by rw [hkeep.1, hbase]) (by rw [hkeep.2, hbaseY]),
      hcfg.2.2.2.2.2.2.2.2, hcfg.2.2.2.2.2.2.1]
    rfl
  rw [hform, hformY, hspx, hspy]
  simp only [JSVal.sub, JSVal.abs, JSVal.gtB, hthr]
  refine ⟨fun hle => ?_, fun hgt => ?_, fun hgt hpos => ?_, fun hle => ?_,
    fun hgt => ?_, fun hgt hpos => ?_, fun hsens hval => ?_⟩
  · rw [if_neg (by simp only [decide_eq_true_eq, not_lt]; linarith)]
  · rw [if_pos (by simp only [decide_eq_true_eq]; linarith)]
    rfl
  · have h1 : spx - bx ≠ 0 := by
      intro h0
      rw [h0] at hgt
      norm_num at hgt
    exact mul_ne_zero h1 (ne_of_gt hpos)
  · rw [if_neg (by simp only [decide_eq_true_eq, not_lt]; linarith)]
  · rw [if_pos (by simp only [decide_eq_true_eq]; linarith)]
    rfl
  · have h1 : spy - yb ≠ 0 := by
      intro h0
      rw [h0] at hgt
      norm_num at hgt
    exact mul_ne_zero h1 (ne_of_gt hpos)
  · have he : spx - bx = 1/100 := by rw [hval]; ring
    rw [if_pos (by
        simp only [decide_eq_true_eq, he]
        rw [abs_of_nonneg (by norm_num)]
        norm_num), hsens, he]
    simp only [JSVal.mul]
    norm_num

/-- A controller that has captured a stable-point baseline at x = 0, y = 0
(via a first stable-point frame) and then had its X sensitivity set to
1000. -/
noncomputable def stableBaselineState : HeadTrackingController :=
  setSensitivity
    ((processHeadPose controller100
      (some { translation := some ⟨JSVal.val 0, JSVal.val 0, JSVal.val (-50)⟩,
              stablePoint := some ⟨JSVal.val 0, JSVal.val 0, JSVal.val 0⟩ })).2)
    1000 1780 (1/200)

/-- Witness for C5: the concrete scenario — stable x = baselineX + 0.01,
sensitivityX = 1000 — returns pan offset X exactly 10, while the Y delta 0,
being at or below the threshold, returns pan offset Y exactly 0. -/
theorem C5_noise_gating_witness :
    ((processHeadPose stableBaselineState
        (some { translation := some ⟨JSVal.val 0, JSVal.val 0, JSVal.val (-50)⟩,
                stablePoint := some ⟨JSVal.val (1/100), JSVal.val 0, JSVal.val 0⟩ })).1.map
      TrackingResult.offsetX) = some (JSVal.val 10) ∧
    ((processHeadPose stableBaselineState
        (some { translation := some ⟨JSVal.val 0, JSVal.val 0, JSVal.val (-50)⟩,
                stablePoint := some ⟨JSVal.val (1/100), JSVal.val 0, JSVal.val 0⟩ })).1.map
      TrackingResult.offsetY) = some (JSVal.val 0) := by
  have h := C5_noise_gating stableBaselineState 0 0 (1/100) 0
      ⟨JSVal.val (1/100), JSVal.val 0, JSVal.val 0⟩
      ⟨JSVal.val 0, JSVal.val 0, JSVal.val (-50)⟩
      (by simp [stableBaselineState, setSensitivity, controller100, processHeadPose,
        captureBases, mkHeadTrackingController])
      (by simp [stableBaselineState, setSensitivity, controller100, processHeadPose,
        captureBases, mkHeadTrackingController])
      (by simp [stableBaselineState, setSensitivity, controller100, processHeadPose,
        captureBases, mkHeadTrackingController])
      rfl rfl
  exact ⟨h.2.2.2.2.2.2 (by simp [stableBaselineState, setSensitivity]) (by norm_num),
    h.2.2.2.1 (by norm_num)⟩

lemma frameDistance_congr (s1 s2 : HeadTrackingController) (t : Vec3)
    (h1 : s1.baseTranslationZ = s2.baseTranslationZ)
    (h2 : s1.previousTranslationZ = s2.previousTranslationZ)
    (h3 : s1.smoothingFactor = s2.smoothingFactor)
    (h4 : s1.minDistance = s2.minDistance)
    (h5 : s1.maxDistance = s2.maxDistance)
    (h6 : s1.sensitivityZ = s2.sensitivityZ) :
    frameDistance s1 t = frameDistance s2 t := by
  unfold frameDistance smoothedDeltaZ
  rw [h1, h2, h3, h4, h5, h6]

/-- C6: `resetBasePosition` clears exactly the X/Y baseline state — the
translation X/Y baselines, all stable-point baselines and the X/Y smoothing
accumulators — while leaving `baseTranslationZ` and `previousTranslationZ`
unchanged (and `baseInitialized` set), so that a recenter does not change the
distance or display percent computed for any subsequent frame. -/
theorem C6_reset_preserves_zoom (s : HeadTrackingController) :
    (resetBasePosition s).baseTranslationZ = s.baseTranslationZ ∧
    (resetBasePosition s).previousTranslationZ = s.previousTranslationZ ∧
    (resetBasePosition s).baseInitialized = true ∧
    (resetBasePosition s).baseTranslationX = none ∧
    (resetBasePosition s).baseTranslationY = none ∧
    (resetBasePosition s).baseStablePointX = none ∧
    (resetBasePosition s).baseStablePointY = none ∧
    (resetBasePosition s).baseStablePointZ = none ∧
    (resetBasePosition s).previousTranslationX = JSVal.val 0 ∧
    (resetBasePosition s).previousTranslationY = JSVal.val 0 ∧
    (s.baseInitialized = true → ∀ m : Option MediaPipeResult,
      ((processHeadPose (resetBasePosition s) m).1.map TrackingResult.distance) =
        ((processHeadPose s m).1.map TrackingResult.distance) ∧
      ((processHeadPose (resetBasePosition s) m).1.map TrackingResult.displayPercent) =
        ((processHeadPose s m).1.map TrackingResult.displayPercent)) := by
  refine ⟨rfl, rfl, rfl, rfl, rfl, rfl, rfl, rfl, rfl, rfl, fun hinit m => ?_⟩
  rcases m with _ | ⟨tr, sp⟩
  · exact ⟨rfl, rfl⟩
  rcases tr with _ | t
  · exact ⟨rfl, rfl⟩
  have hL := captureBases_config (resetBasePosition s) t sp
  have hR := captureBases_config s t sp
  have hZL : (captureBases (resetBasePosition s) t sp).baseTranslationZ =
      s.baseTranslationZ :=
    captureBases_baseTranslationZ_of_initialized (resetBasePosition s) t sp rfl
  have hZR : (captureBases s t sp).baseTranslationZ = s.baseTranslationZ :=
    captureBases_baseTranslationZ_of_initialized s t sp hinit
  have hfd : frameDistance (captureBases (resetBasePosition s) t sp) t =
      frameDistance (captureBases s t sp) t := by
    apply frameDistance_congr
    · rw [hZL, hZR]
    · rw [hL.2.2.2.1, hR.2.2.2.1]; rfl
    · rw [hL.2.2.2.2.1, hR.2.2.2.2.1]; rfl
    · rw [hL.2.1, hR.2.1]; rfl
    · rw [hL.2.2.1, hR.2.2.1]; rfl
    · rw [hL.2.2.2.2.2.2.2.1, hR.2.2.2.2.2.2.2.1]; rfl
  have hsw : (captureBases (resetBasePosition s) t sp).screenWidth =
      (captureBases s t sp).screenWidth := by
    rw [hL.1, hR.1]; rfl
  constructor
  · rw [processHeadPose_result, processHeadPose_result]
    dsimp only [Option.map]
    rw [hfd]
  · rw [processHeadPose_result, processHeadPose_result]
    dsimp only [Option.map]
    rw [hfd, hsw]

/-- Witness for C6: resetting after a first frame leaves the next frame's
distance and display percent unchanged. -/
theorem C6_reset_preserves_zoom_witness :
    ((processHeadPose (resetBasePosition afterFirstFrame)
        (some (sampleTranslationOnly 3 3 (-48)))).1.map TrackingResult.distance) =
      ((processHeadPose afterFirstFrame
        (some (sampleTranslationOnly 3 3 (-48)))).1.map TrackingResult.distance) ∧
    ((processHeadPose (resetBasePosition afterFirstFrame)
        (some (sampleTranslationOnly 3 3 (-48)))).1.map TrackingResult.displayPercent) =
      ((processHeadPose afterFirstFrame
        (some (sampleTranslationOnly 3 3 (-48)))).1.map TrackingResult.displayPercent) :=
  (C6_reset_preserves_zoom afterFirstFrame).2.2.2.2.2.2.2.2.2.2
    (by simp [afterFirstFrame, controller100, sampleTranslationOnly, processHeadPose,
      captureBases, mkHeadTrackingController])
    (some (sampleTranslationOnly 3 3 (-48)))

/-- At a 100-pixel screen width and the first-frame baseline distance
0.5109 m, the angular size is below the 28-degree minimum. -/
lemma angle_small_100 :
    calculateAngularSize (JSVal.val 100) (JSVal.val (5109/10000)) ≤ 28 := by
  simp only [calculateAngularSize]
  rw [if_neg (by norm_num)]
  have hc : ((100:ℚ) : ℝ) * (0.0254 / 96) / (2 * ((5109/10000 : ℚ) : ℝ)) =
      3175/122616 := by
    push_cast
    norm_num
  rw [hc]
  have hA1 : 0 ≤ Real.arctan (3175/122616) :=
    arctan_nonneg_of_nonneg (by norm_num)
  have hA2 : Real.arctan (3175/122616) ≤ 3175/122616 :=
    arctan_le_self_of_nonneg (by norm_num)
  have hπ := Real.pi_gt_three
  have h180 : (180:ℝ) / Real.pi ≤ 60 := by
    rw [div_le_iff₀ Real.pi_pos]
    nlinarith
  have h180n : (0:ℝ) ≤ 180 / Real.pi := by positivity
  nlinarith [mul_le_mul hA2 h180 h180n (by norm_num : (0:ℝ) ≤ 3175/122616)]

/-- C9 (amended): a first-ever translation-only sample at `{x:0, y:0, z:-50}`
establishes the translation baseline and returns pan offsets exactly 0 and
distance exactly 0.5109 m (the baseline distance); the display percent lies in
`[30, 100]` but depends on the configured screen width — it is not 50 in
general (see the counterexample, where it is exactly 30). -/
theorem C9_first_frame (w h : JSVal) :
    ((processHeadPose (mkHeadTrackingController w h)
        (some (sampleTranslationOnly 0 0 (-50)))).1.map TrackingResult.offsetX) =
      some (JSVal.val 0) ∧
    ((processHeadPose (mkHeadTrackingController w h)
        (some (sampleTranslationOnly 0 0 (-50)))).1.map TrackingResult.offsetY) =
      some (JSVal.val 0) ∧
    ((processHeadPose (mkHeadTrackingController w h)
        (some (sampleTranslationOnly 0 0 (-50)))).1.map TrackingResult.distance) =
      some (JSVal.val (5109/10000)) ∧
    (processHeadPose (mkHeadTrackingController w h)
        (some (sampleTranslationOnly 0 0 (-50)))).2.baseTranslationX =
      some (JSVal.val 0) ∧
    (processHeadPose (mkHeadTrackingController w h)
        (some (sampleTranslationOnly 0 0 (-50)))).2.baseTranslationZ =
      some (JSVal.val (-50)) ∧
    ∃ p, ((processHeadPose (mkHeadTrackingController w h)
        (some (sampleTranslationOnly 0 0 (-50)))).1.map TrackingResult.displayPercent) =
      some p ∧ 30 ≤ p ∧ p ≤ 100 := by
  have hfd : frameDistance
      (captureBases (mkHeadTrackingController w h)
        ⟨JSVal.val 0, JSVal.val 0, JSVal.val (-50)⟩ none)
      ⟨JSVal.val 0, JSVal.val 0, JSVal.val (-50)⟩ = JSVal.val (5109/10000) := by
    simp only [frameDistance, smoothedDeltaZ, captureBases, mkHeadTrackingController,
      zTranslationToDistance, nullToNum, smoothValue, jlerp, clampQ, JSVal.sub,
      JSVal.add, JSVal.mul, JSVal.neg, JSVal.abs, JSVal.gtB, JSVal.maxC, JSVal.minC]
    norm_num
  refine ⟨rfl, rfl, ?_, rfl, rfl, ?_⟩
  · rw [show sampleTranslationOnly 0 0 (-50) =
      { translation := some ⟨JSVal.val 0, JSVal.val 0, JSVal.val (-50)⟩,
        stablePoint := none } from rfl, processHeadPose_result]
    dsimp only [Option.map]
    rw [hfd]
  · refine ⟨angularSizeToDisplayPercent
      (calculateAngularSize (mkHeadTrackingController w h).screenWidth
        (JSVal.val (5109/10000))) 28 180 30 100, ?_, ?_, ?_⟩
    · rw [show sampleTranslationOnly 0 0 (-50) =
        { translation := some ⟨JSVal.val 0, JSVal.val 0, JSVal.val (-50)⟩,
          stablePoint := none } from rfl, processHeadPose_result]
      dsimp only [Option.map]
      rw [hfd]
      rfl
    · exact (angularSizeToDisplayPercent_bounds _).1
    · exact (angularSizeToDisplayPercent_bounds _).2

/-- C9 counterexample: on a 100-pixel-wide screen the first frame at
`{x:0, y:0, z:-50}` yields display percent exactly 30 (the angular size falls
below the 28-degree minimum), not the claimed 50. -/
theorem C9_counterexample :
    ((processHeadPose controller100 (some (sampleTranslationOnly 0 0 (-50)))).1.map
      TrackingResult.displayPercent) = some 30 ∧ (30:ℝ) ≠ 50 := by
  constructor
  · have hfd : frameDistance
        (captureBases controller100 ⟨JSVal.val 0, JSVal.val 0, JSVal.val (-50)⟩ none)
        ⟨JSVal.val 0, JSVal.val 0, JSVal.val (-50)⟩ = JSVal.val (5109/10000) := by
      simp only [frameDistance, smoothedDeltaZ, captureBases, controller100,
        mkHeadTrackingController, zTranslationToDistance, nullToNum, smoothValue,
        jlerp, clampQ, JSVal.sub, JSVal.add, JSVal.mul, JSVal.neg, JSVal.abs,
        JSVal.gtB, JSVal.maxC, JSVal.minC]
      norm_num
    rw [show sampleTranslationOnly 0 0 (-50) =
      { translation := some ⟨JSVal.val 0, JSVal.val 0, JSVal.val (-50)⟩,
        stablePoint := none } from rfl, processHeadPose_result]
    dsimp only [Option.map]
    rw [hfd]
    rw [show (captureBases controller100
        ⟨JSVal.val 0, JSVal.val 0, JSVal.val (-50)⟩ none).screenWidth =
      JSVal.val 100 from rfl]
    rw [angularSizeToDisplayPercent_of_le_min angle_small_100]
  · norm_num

/-- C8: `processHeadPose` returns `none` exactly when the input is absent or
carries no translation; every other input — including samples with `NaN`
components — produces a result whose distance is a finite value in
`[minDistance, maxDistance] = [0.1, 1.5]` and whose display percent lies in
`[30, 100]`; the smoothing accumulator stays non-`NaN`; and the invalid-input
fallbacks are the fixed constants of the source: angle 28 for invalid width or
distance, and the midpoint distance for invalid (`null`/`NaN`) z. -/
theorem C8_error_handling (s : HeadTrackingController)
    (hprev : s.previousTranslationZ ≠ JSVal.nan)
    (hmin : s.minDistance = 1/10) (hmax : s.maxDistance = 3/2) :
    processHeadPose s none = (none, s) ∧
    (∀ sp, processHeadPose s (some ⟨none, sp⟩) = (none, s)) ∧
    (∀ t sp, ∃ r, (processHeadPose s (some ⟨some t, sp⟩)).1 = some r ∧
      (∃ q, r.distance = JSVal.val q ∧ 1/10 ≤ q ∧ q ≤ 3/2) ∧
      30 ≤ r.displayPercent ∧ r.displayPercent ≤ 100 ∧
      (processHeadPose s (some ⟨some t, sp⟩)).2.previousTranslationZ ≠ JSVal.nan) ∧
    (∀ d, calculateAngularSize JSVal.nan d = 28) ∧
    (∀ w, calculateAngularSize w JSVal.nan = 28) ∧
    (∀ w q, q ≤ 0 → calculateAngularSize w (JSVal.val q) = 28) ∧
    (∀ q w, q ≤ 0 → calculateAngularSize (JSVal.val q) w = 28) ∧
    zTranslationToDistance none (1/10) (3/2) = (1/10 + 3/2) / 2 ∧
    zTranslationToDistance (some JSVal.nan) (1/10) (3/2) = (1/10 + 3/2) / 2 := by
  refine ⟨rfl, fun sp => rfl, fun t sp => ?_, fun d => ?_, fun w => ?_,
    fun w q hq => ?_, fun q w hq => ?_, rfl, rfl⟩
  · have hcfg := captureBases_config s t sp
    obtain ⟨c, hc⟩ := smoothedDeltaZ_not_nan (captureBases s t sp) t
      (by rw [hcfg.2.2.2.1]; exact hprev)
    have hq : frameDistance (captureBases s t sp) t =
        JSVal.val (max (1/10) (min (3/2)
          (zTranslationToDistance (captureBases s t sp).baseTranslationZ
              (1/10) (3/2) +
            -c * ((captureBases s t sp).sensitivityZ * (5/2))))) := by
      unfold frameDistance
      rw [hcfg.2.1, hcfg.2.2.1, hmin, hmax, hc]
      simp only [JSVal.neg, JSVal.mul, JSVal.add, JSVal.maxC, JSVal.minC]
    rw [processHeadPose_result]
    refine ⟨_, rfl, ⟨_, hq, le_max_left _ _,
      max_le (by norm_num) (min_le_left _ _)⟩,
      (angularSizeToDisplayPercent_bounds _).1,
      (angularSizeToDisplayPercent_bounds _).2, ?_⟩
    dsimp only
    rw [hc]
    simp
  · cases d <;> rfl
  · cases w <;> rfl
  · cases w
    · rfl
    · simp only [calculateAngularSize]
      rw [if_pos (Or.inr hq)]
  · cases w
    · rfl
    · simp only [calculateAngularSize]
      rw [if_pos (Or.inl hq)]

/-- Witness for C8: a fresh controller returns `none` for an absent pose, and
a sample whose components are all `NaN` still yields a bounded distance and
display percent. -/
theorem C8_error_handling_witness :
    processHeadPose controller100 none = (none, controller100) ∧
    (∃ r, (processHeadPose controller100
        (some ⟨some ⟨JSVal.nan, JSVal.nan, JSVal.nan⟩, none⟩)).1 = some r ∧
      (∃ q, r.distance = JSVal.val q ∧ 1/10 ≤ q ∧ q ≤ 3/2) ∧
      30 ≤ r.displayPercent ∧ r.displayPercent ≤ 100 ∧
      (processHeadPose controller100
        (some ⟨some ⟨JSVal.nan, JSVal.nan, JSVal.nan⟩, none⟩)).2.previousTranslationZ ≠
        JSVal.nan) := by
  have h := C8_error_handling controller100 (by simp [controller100,
    mkHeadTrackingController]) rfl rfl
  exact ⟨h.1, h.2.2.1 ⟨JSVal.nan, JSVal.nan, JSVal.nan⟩ none⟩
